import Mathlib

/-
Verification development for the LogSentinel batching/flushing/delivery
subsystem (NestJS SDK).  The TypeScript sources are shallowly embedded:
each class becomes a structure, each method a pure function on that
structure; the asynchronous environment (HTTP responses, timer ticks,
whether a promise settles within a deadline) is passed in explicitly as
oracle parameters.
-/

namespace LogSentinel

/-! ### Constants (src/config/constants.ts) -/

def BATCH_SIZE : Nat := 5
def FLUSH_INTERVAL_MS : Nat := 5000
def HTTP_TIMEOUT_MS : Nat := 10000
def MAX_RETRIES : Nat := 3
def RETRY_DELAY_MS : Nat := 1000
def SHUTDOWN_GRACE_PERIOD_MS : Nat := 5000

/-! ### Log entries (src/config/options.interface.ts, interface LogEntry) -/

/-- One captured request/response event.  Opaque `any`-typed payload
fields are abstracted to `Option String`.  The TypeScript type allows
`requestBody`/`responseBody` values on which `JSON.stringify` throws
(e.g. a circular object); that possibility is abstracted by the
`serializable` flag: `serializable = false` models an entry whose JSON
serialization throws. -/
structure LogEntry where
  timestamp : String := ""
  method : String := ""
  url : String := ""
  query : List (String × String) := []
  requestHeaders : List (String × String) := []
  requestBody : Option String := none
  statusCode : Option Nat := none
  responseBody : Option String := none
  executionTimeMs : Option Nat := none
  error : Option String := none
  serializable : Bool := true
deriving Repr, DecidableEq

/-! ### BatchQueue (src/batching/batch-queue.ts) -/

/-- In-memory batch queue: an ordered list of pending entries plus the
`isShuttingDown` flag. -/
structure BatchQueue where
  queue : List LogEntry := []
  isShuttingDown : Bool := false
deriving Repr, DecidableEq

/-- `add(entry)`: appends unless shutting down; returns whether the entry
was accepted, together with the updated queue. -/
def BatchQueue.add (q : BatchQueue) (entry : LogEntry) : Bool × BatchQueue :=
  if q.isShuttingDown then (false, q)
  else (true, { q with queue := q.queue ++ [entry] })

/-- `getAndClear()`: returns all entries and clears the queue. -/
def BatchQueue.getAndClear (q : BatchQueue) : List LogEntry × BatchQueue :=
  (q.queue, { q with queue := [] })

/-- `size()`: current number of held entries. -/
def BatchQueue.size (q : BatchQueue) : Nat :=
  q.queue.length

/-- `isEmpty()`. -/
def BatchQueue.isEmpty (q : BatchQueue) : Bool :=
  q.queue.length = 0

/-- `beginShutdown()`: sets the shutdown flag. -/
def BatchQueue.beginShutdown (q : BatchQueue) : BatchQueue :=
  { q with isShuttingDown := true }

/-- `isInShutdown()`. -/
def BatchQueue.isInShutdown (q : BatchQueue) : Bool :=
  q.isShuttingDown

/-! ### HttpClient (src/transport/http-client.ts)

The network environment is an oracle `Nat → AttemptResult` giving, for
each 0-indexed attempt of the retry loop, either the HTTP status the
`fetch` resolved with, or `netError` for a thrown failure (timeout/abort,
connection refused, malformed response — everything the `catch` block
receives). -/

/-- Result of one `fetch` attempt as observed by `sendLog`'s loop body. -/
inductive AttemptResult where
  | httpStatus (code : Nat)
  | netError
deriving Repr, DecidableEq

/-- An attempt result the loop treats as transient (retries): a thrown
failure, or a status that is neither 2xx (`response.ok`) nor 4xx. -/
def transientB : AttemptResult → Bool
  | AttemptResult.netError => true
  | AttemptResult.httpStatus c =>
      if 200 ≤ c ∧ c < 300 then false
      else if 400 ≤ c ∧ c < 500 then false
      else true

/-- Observable outcome of one `sendLog` call: the returned boolean
(`delivered`), the number of loop iterations (attempts) executed, and the
list of backoff waits (in ms) performed between attempts, in order. -/
structure SendOutcome where
  delivered : Bool
  attempts : Nat
  waits : List Nat
deriving Repr, DecidableEq

/-- The `for (let attempt = 0; attempt <= MAX_RETRIES; attempt++)` loop of
`sendLog`, with `fuel` bounding the remaining iterations (any
`fuel ≥ MAX_RETRIES + 2` makes the explicit `attempt > MAX_RETRIES` exit
fire first, matching the source's loop condition).  Branches mirror the
source: 2xx returns true; 4xx returns false without retrying; a caught
failure on the last attempt returns false; otherwise the loop waits
`RETRY_DELAY_MS * (attempt + 1)` and continues; falling out of the loop
returns false. -/
def sendLogLoop (oracle : Nat → AttemptResult) : Nat → Nat → SendOutcome
  | 0, _ => ⟨false, 0, []⟩
  | fuel + 1, attempt =>
    if MAX_RETRIES < attempt then ⟨false, 0, []⟩
    else
      match oracle attempt with
      | AttemptResult.httpStatus code =>
        if 200 ≤ code ∧ code < 300 then ⟨true, 1, []⟩
        else if 400 ≤ code ∧ code < 500 then ⟨false, 1, []⟩
        else
          if attempt < MAX_RETRIES then
            let rest := sendLogLoop oracle fuel (attempt + 1)
            ⟨rest.delivered, rest.attempts + 1, RETRY_DELAY_MS * (attempt + 1) :: rest.waits⟩
          else
            let rest := sendLogLoop oracle fuel (attempt + 1)
            ⟨rest.delivered, rest.attempts + 1, rest.waits⟩
      | AttemptResult.netError =>
        if attempt = MAX_RETRIES then ⟨false, 1, []⟩
        else
          let rest := sendLogLoop oracle fuel (attempt + 1)
          ⟨rest.delivered, rest.attempts + 1, RETRY_DELAY_MS * (attempt + 1) :: rest.waits⟩

/-- Inside the `try` block, `JSON.stringify(logEntry)` (the request body)
throws for a non-serializable entry; that exception is caught by the
`catch` block, so every attempt on a non-serializable entry behaves as a
caught failure. -/
def effectiveOracle (serializable : Bool) (oracle : Nat → AttemptResult) :
    Nat → AttemptResult :=
  fun i => if serializable then oracle i else AttemptResult.netError

/-- `sendLog(logEntry)`.  In debug mode the source first runs
`console.log(..., JSON.stringify(logEntry, null, 2))` OUTSIDE the
`try`/`catch` (http-client.ts line 33); for a non-serializable entry that
serialization throws and the exception propagates to the caller, modelled
as `Except.error ()`.  Otherwise the retry loop runs and its boolean
result is returned. -/
def sendLog (debug : Bool) (logEntry : LogEntry) (oracle : Nat → AttemptResult) :
    Except Unit SendOutcome :=
  if debug ∧ logEntry.serializable = false then Except.error ()
  else Except.ok (sendLogLoop (effectiveOracle logEntry.serializable oracle) (MAX_RETRIES + 2) 0)

/-- Sequential loop of `sendBatch`: sends each entry with `sendLog` in
list order, counts successes, and records the order in which entries are
handed to `sendLog`.  An exception from `sendLog` propagates (the source
has no `try` around the loop).  The per-entry network environment is
`oracle entry`. -/
def sendBatchLoop (debug : Bool) (oracle : LogEntry → Nat → AttemptResult) :
    List LogEntry → Except Unit (Nat × List LogEntry)
  | [] => Except.ok (0, [])
  | entry :: rest =>
    match sendLog debug entry (oracle entry) with
    | Except.error u => Except.error u
    | Except.ok outcome =>
      match sendBatchLoop debug oracle rest with
      | Except.error u => Except.error u
      | Except.ok (cnt, trace) =>
        Except.ok ((if outcome.delivered then 1 else 0) + cnt, entry :: trace)

/-- `sendBatch(logEntries)`.  In debug mode with a non-empty batch the
source first runs `JSON.stringify(logEntries, null, 2)` OUTSIDE any
`try`/`catch` (http-client.ts line 104); if any entry is non-serializable
that throws and propagates.  Otherwise entries are sent sequentially. -/
def sendBatch (debug : Bool) (logEntries : List LogEntry)
    (oracle : LogEntry → Nat → AttemptResult) : Except Unit (Nat × List LogEntry) :=
  if debug ∧ logEntries ≠ [] ∧ logEntries.any (fun e => e.serializable = false) then
    Except.error ()
  else sendBatchLoop debug oracle logEntries

/-- The delivered/failed classification of one entry under `sendLog`
(false both for a failed delivery and for a propagated exception). -/
def deliveredFlag (debug : Bool) (e : LogEntry) (att : Nat → AttemptResult) : Bool :=
  match sendLog debug e att with
  | Except.ok outcome => outcome.delivered
  | Except.error _ => false

/-! ### BatchFlusher (src/batching/batch-flusher.ts)

The flusher holds its `BatchQueue` (in the source it holds a reference to
the queue the SDK constructed; they are fused into one state record
here).  The awaited result of `httpClient.sendBatch(entries)` is supplied
by the oracle `sendResult : List LogEntry → Nat` (the success count the
promise resolves with); the list of `sendBatch` invocations observed by
the transport is recorded in `sendBatchCalls`. -/

structure BatchFlusher where
  batchSize : Nat
  queue : BatchQueue := {}
  flushInProgress : Bool := false
  isRunning : Bool := false
  timerActive : Bool := false
  sendBatchCalls : List (List LogEntry) := []
  lastReport : Option (Nat × Nat) := none
deriving Repr, DecidableEq

/-- `flush()`: if the `flushInProgress` guard is held, return at once
(no drain, no transport call); otherwise take the guard, `getAndClear`
the queue, return if the batch is empty, otherwise call
`httpClient.sendBatch` and record the aggregate success report; the
`finally` block releases the guard on every path. -/
def BatchFlusher.flush (sendResult : List LogEntry → Nat) (f : BatchFlusher) :
    BatchFlusher :=
  if f.flushInProgress then f
  else
    let entries := f.queue.queue
    let f1 := { f with flushInProgress := true, queue := { f.queue with queue := [] } }
    if entries.isEmpty then { f1 with flushInProgress := false }
    else
      { f1 with
          sendBatchCalls := f1.sendBatchCalls ++ [entries],
          lastReport := some (sendResult entries, entries.length),
          flushInProgress := false }

/-- `checkAndFlush()`: the timer-tick body; skips when a flush is in
progress, flushes when the queue size has reached the configured batch
size. -/
def BatchFlusher.checkAndFlush (sendResult : List LogEntry → Nat) (f : BatchFlusher) :
    BatchFlusher :=
  if f.flushInProgress then f
  else if f.queue.size ≥ f.batchSize then BatchFlusher.flush sendResult f
  else f

/-- `manualFlush()`: used during graceful shutdown; delegates to
`flush()`. -/
def BatchFlusher.manualFlush (sendResult : List LogEntry → Nat) (f : BatchFlusher) :
    BatchFlusher :=
  BatchFlusher.flush sendResult f

/-- `start()`: idempotent; marks the flusher running and installs the
periodic `setInterval` timer. -/
def BatchFlusher.start (f : BatchFlusher) : BatchFlusher :=
  if f.isRunning then f
  else { f with isRunning := true, timerActive := true }

/-- `stop()`: clears the interval timer and marks the flusher stopped. -/
def BatchFlusher.stop (f : BatchFlusher) : BatchFlusher :=
  { f with timerActive := false, isRunning := false }

/-! ### Scheduler-level events

The only paths into the flusher while the SDK is live are: the
interceptor appending an entry (`queue.add`, which performs no threshold
check), and a timer tick firing `checkAndFlush` (only while the interval
is installed). -/

/-- An externally observable event while the subsystem is running. -/
inductive SchedulerEvent where
  | add (e : LogEntry)
  | tick
deriving Repr, DecidableEq

/-- One event step.  `add` is the interceptor's `this.queue.add(logEntry)`
(src/interceptors/logSentinelInterceptor.ts line 85): it only appends.
`tick` runs the `setInterval` callback `checkAndFlush` when the timer is
installed. -/
def BatchFlusher.stepEvent (sendResult : List LogEntry → Nat) (f : BatchFlusher) :
    SchedulerEvent → BatchFlusher
  | SchedulerEvent.add e => { f with queue := (f.queue.add e).2 }
  | SchedulerEvent.tick =>
      if f.timerActive then BatchFlusher.checkAndFlush sendResult f else f

/-- Run a sequence of events. -/
def BatchFlusher.runEvents (sendResult : List LogEntry → Nat) (f : BatchFlusher)
    (evs : List SchedulerEvent) : BatchFlusher :=
  evs.foldl (BatchFlusher.stepEvent sendResult) f

/-! ### LogSentinelSDK (src/core/logsentinel.sdk.ts) -/

/-- Validated configuration (src/config/options.interface.ts, interface
EnvConfig). -/
structure EnvConfig where
  apiKey : String
  baseUrl : String
  debug : Bool
  batchSize : Nat
deriving Repr, DecidableEq

/-- SDK state: the queue and flusher exist only after a successful
`install` (they are `undefined` before, and are created together, so they
are held as one optional `BatchFlusher`, which contains the queue). -/
structure LogSentinelSDK where
  flusher : Option BatchFlusher := none
  isEnabled : Bool := false
  isShuttingDown : Bool := false
deriving Repr, DecidableEq

/-- `install(app)`.  `loadEnvironmentConfig()`'s result is passed in as
`envConfig` (`none` models a missing/invalid environment, upon which the
method warns and returns with the SDK disabled and no queue created).
On `some`, options are merged over the environment config, the queue and
flusher are constructed with the merged batch size, the flusher is
started, and the SDK is enabled.  (The merged `debug` flag feeds only the
internal logger's verbosity and the transport's diagnostic printing; it
is not part of this state.) -/
def LogSentinelSDK.install (s : LogSentinelSDK) (envConfig : Option EnvConfig)
    (optBatchSize : Option Nat) : LogSentinelSDK :=
  match envConfig with
  | none => s
  | some env =>
    let batchSize := optBatchSize.getD env.batchSize
    let f : BatchFlusher := { batchSize := batchSize }
    { s with flusher := some (BatchFlusher.start f), isEnabled := true }

/-- The event-source path into the SDK: the interceptor's
`this.queue.add(logEntry)`.  A no-op when the SDK was never installed
(no queue exists). -/
def LogSentinelSDK.enqueue (s : LogSentinelSDK) (e : LogEntry) : LogSentinelSDK :=
  match s.flusher with
  | none => s
  | some f => { s with flusher := some { f with queue := (f.queue.add e).2 } }

/-- `getQueueSize()`: `this.queue?.size() ?? 0`. -/
def LogSentinelSDK.getQueueSize (s : LogSentinelSDK) : Nat :=
  match s.flusher with
  | some f => f.queue.size
  | none => 0

/-- `shutdown()`.  Mirrors the source statement by statement under
single-threaded event-loop semantics: after the early return for a
disabled SDK, it marks the queue shutting down, stops the interval, and
starts `manualFlush()`, whose body runs synchronously up to its first
`await` — guard check, guard acquisition, `getAndClear`, empty check —
and suspends only at `await httpClient.sendBatch(entries)`.  The race
`Promise.race([flushPromise, timeoutPromise])` is decided by the oracle
`flushCompletes`: whether `sendBatch` settles within
`SHUTDOWN_GRACE_PERIOD_MS`.  If it does not, the timeout wins and the
flush is left in flight (guard still held, call not canceled).  Finally
`this.queue.size()` is read and reported as the unsent count (second
component of the result; `none` when the early return fired). -/
def LogSentinelSDK.shutdown (sendResult : List LogEntry → Nat)
    (flushCompletes : Bool) (s : LogSentinelSDK) :
    LogSentinelSDK × Option Nat :=
  if s.isEnabled = false then (s, none)
  else
    match s.flusher with
    | none => (s, none)
    | some f =>
      let f1 := { f with queue := f.queue.beginShutdown }
      let f2 := BatchFlusher.stop f1
      if f2.flushInProgress then
        -- manualFlush returns at once; its promise settles before the timer
        ({ s with flusher := some f2 }, some f2.queue.size)
      else
        let entries := f2.queue.queue
        let f3 := { f2 with flushInProgress := true, queue := { f2.queue with queue := [] } }
        if entries.isEmpty then
          -- flush returns before awaiting; the finally releases the guard
          let f4 := { f3 with flushInProgress := false }
          ({ s with flusher := some f4 }, some f4.queue.size)
        else
          let f4 := { f3 with sendBatchCalls := f3.sendBatchCalls ++ [entries] }
          if flushCompletes then
            let f5 := { f4 with
                          lastReport := some (sendResult entries, entries.length),
                          flushInProgress := false }
            ({ s with flusher := some f5 }, some f5.queue.size)
          else
            ({ s with flusher := some f4 }, some f4.queue.size)

/-! ### Helper lemmas for the retry loop -/

/-- Once the attempt counter passes `MAX_RETRIES`, the loop exits and
`sendLog` returns false. -/
theorem sendLogLoop_exit (oracle : Nat → AttemptResult) (fuel a : Nat)
    (h : MAX_RETRIES < a) : sendLogLoop oracle fuel a = ⟨false, 0, []⟩ := by
  cases fuel with
  | zero => simp [sendLogLoop]
  | succ f => simp [sendLogLoop, h]

/-- A transient attempt before the last one adds a backoff wait of
`RETRY_DELAY_MS * (attempt + 1)` and continues the loop. -/
theorem sendLogLoop_transient_step (oracle : Nat → AttemptResult) (fuel a : Nat)
    (h : transientB (oracle a) = true) (hlt : a < MAX_RETRIES) :
    sendLogLoop oracle (fuel + 1) a =
      ⟨(sendLogLoop oracle fuel (a + 1)).delivered,
       (sendLogLoop oracle fuel (a + 1)).attempts + 1,
       RETRY_DELAY_MS * (a + 1) :: (sendLogLoop oracle fuel (a + 1)).waits⟩ := by
  have hna : ¬ MAX_RETRIES < a := by omega
  cases hor : oracle a with
  | netError =>
      have hne : a ≠ MAX_RETRIES := Nat.ne_of_lt hlt
      simp [sendLogLoop, hor, hna, hne]
  | httpStatus c =>
      rw [hor] at h
      simp only [transientB] at h
      split_ifs at h with hh1 hh2
      simp [sendLogLoop, hor, hna, hh1, hh2, hlt]

/-- A transient result on the final attempt yields failure with no
further wait and no further attempt. -/
theorem sendLogLoop_transient_last (oracle : Nat → AttemptResult) (fuel : Nat)
    (h : transientB (oracle MAX_RETRIES) = true) :
    sendLogLoop oracle (fuel + 1) MAX_RETRIES = ⟨false, 1, []⟩ := by
  cases hor : oracle MAX_RETRIES with
  | netError => simp [sendLogLoop, hor]
  | httpStatus c =>
      rw [hor] at h
      simp only [transientB] at h
      split_ifs at h with hh1 hh2
      have hx : sendLogLoop oracle fuel (MAX_RETRIES + 1) = ⟨false, 0, []⟩ :=
        sendLogLoop_exit oracle fuel (MAX_RETRIES + 1) (by omega)
      simp [sendLogLoop, hor, hh1, hh2, hx]

/-- A 2xx response stops the loop at once with success. -/
theorem sendLogLoop_ok_step (oracle : Nat → AttemptResult) (fuel a c : Nat)
    (hor : oracle a = AttemptResult.httpStatus c) (h2 : 200 ≤ c) (h3 : c < 300)
    (hle : a ≤ MAX_RETRIES) :
    sendLogLoop oracle (fuel + 1) a = ⟨true, 1, []⟩ := by
  have hna : ¬ MAX_RETRIES < a := by omega
  simp [sendLogLoop, hor, hna, h2, h3]

/-- A 4xx response stops the loop at once with failure and no wait. -/
theorem sendLogLoop_4xx_step (oracle : Nat → AttemptResult) (fuel a c : Nat)
    (hor : oracle a = AttemptResult.httpStatus c) (h2 : 400 ≤ c) (h3 : c < 500)
    (hle : a ≤ MAX_RETRIES) :
    sendLogLoop oracle (fuel + 1) a = ⟨false, 1, []⟩ := by
  have hna : ¬ MAX_RETRIES < a := by omega
  have hno : ¬ (200 ≤ c ∧ c < 300) := by omega
  simp [sendLogLoop, hor, hna, hno, h2, h3]

/-- For a serializable entry, `sendLog` never throws: it returns the
retry loop's result, in every configuration including debug mode. -/
theorem sendLog_eq_loop (debug : Bool) (e : LogEntry) (oracle : Nat → AttemptResult)
    (hs : e.serializable = true) :
    sendLog debug e oracle = Except.ok (sendLogLoop oracle (MAX_RETRIES + 2) 0) := by
  have heff : effectiveOracle true oracle = oracle := by
    funext i
    rfl
  simp [sendLog, hs, heff]

/-- C2: Retry schedule of per-record delivery.  For an entry whose first
three delivery attempts are transient (5xx or a thrown network failure),
`sendLog` performs exactly three backoff waits of 1000, 2000, 3000 ms
(RETRY_DELAY_MS times the 1-indexed attempt number); if the fourth
attempt returns 2xx it returns Delivered after exactly 4 attempts, and if
the fourth attempt is also transient it returns Failed after exactly 4
attempts, never making a fifth. -/
theorem C2_retry_schedule (debug : Bool) (e : LogEntry) (oracle : Nat → AttemptResult)
    (hs : e.serializable = true)
    (h0 : transientB (oracle 0) = true) (h1 : transientB (oracle 1) = true)
    (h2 : transientB (oracle 2) = true) :
    (∀ c : Nat, oracle 3 = AttemptResult.httpStatus c → 200 ≤ c → c < 300 →
        sendLog debug e oracle = Except.ok ⟨true, 4, [1000, 2000, 3000]⟩)
    ∧ (transientB (oracle 3) = true →
        sendLog debug e oracle = Except.ok ⟨false, 4, [1000, 2000, 3000]⟩) := by
  rw [sendLog_eq_loop debug e oracle hs]
  constructor
  · intro c hc hc2 hc3
    rw [show MAX_RETRIES + 2 = 4 + 1 from rfl]
    rw [sendLogLoop_transient_step oracle 4 0 h0 (by decide)]
    rw [show (4 : Nat) = 3 + 1 from rfl]
    rw [sendLogLoop_transient_step oracle 3 1 h1 (by decide)]
    rw [show (3 : Nat) = 2 + 1 from rfl]
    rw [sendLogLoop_transient_step oracle 2 2 h2 (by decide)]
    rw [show sendLogLoop oracle 2 (2 + 1) = sendLogLoop oracle (1 + 1) 3 from rfl]
    rw [sendLogLoop_ok_step oracle 1 3 c hc hc2 hc3 (by decide)]
    simp [RETRY_DELAY_MS, MAX_RETRIES]
  · intro h3
    rw [show MAX_RETRIES + 2 = 4 + 1 from rfl]
    rw [sendLogLoop_transient_step oracle 4 0 h0 (by decide)]
    rw [show (4 : Nat) = 3 + 1 from rfl]
    rw [sendLogLoop_transient_step oracle 3 1 h1 (by decide)]
    rw [show (3 : Nat) = 2 + 1 from rfl]
    rw [sendLogLoop_transient_step oracle 2 2 h2 (by decide)]
    rw [show sendLogLoop oracle 2 (2 + 1) = sendLogLoop oracle (1 + 1) MAX_RETRIES from rfl]
    rw [sendLogLoop_transient_last oracle 1 h3]
    simp [RETRY_DELAY_MS, MAX_RETRIES]

/-- Witness for C2 at a concrete transport: three 503 responses followed
by a 200 give Delivered with waits 1000, 2000, 3000 ms; four thrown
network failures give Failed with the same three waits. -/
theorem C2_retry_schedule_witness :
    sendLog false {}
        (fun i => if i < 3 then AttemptResult.httpStatus 503 else AttemptResult.httpStatus 200)
      = Except.ok ⟨true, 4, [1000, 2000, 3000]⟩
    ∧ sendLog false {} (fun _ => AttemptResult.netError)
      = Except.ok ⟨false, 4, [1000, 2000, 3000]⟩ := by
  constructor
  · exact (C2_retry_schedule false {}
      (fun i => if i < 3 then AttemptResult.httpStatus 503 else AttemptResult.httpStatus 200)
      rfl (by decide) (by decide) (by decide)).1 200 (by decide) (by decide) (by decide)
  · exact (C2_retry_schedule false {} (fun _ => AttemptResult.netError)
      rfl rfl rfl rfl).2 rfl

/-- C8: Permanent rejection.  A 4xx status on the first attempt makes
`sendLog` return RejectedPermanent (false) after exactly 1 attempt, with
no retry and no backoff wait, in every configuration. -/
theorem C8_permanent_rejection (debug : Bool) (e : LogEntry) (oracle : Nat → AttemptResult)
    (hs : e.serializable = true) (c : Nat)
    (hor : oracle 0 = AttemptResult.httpStatus c) (h4 : 400 ≤ c) (h5 : c < 500) :
    sendLog debug e oracle = Except.ok ⟨false, 1, []⟩ := by
  rw [sendLog_eq_loop debug e oracle hs]
  rw [show MAX_RETRIES + 2 = 4 + 1 from rfl]
  rw [sendLogLoop_4xx_step oracle 4 0 c hor h4 h5 (by decide)]

/-- Witness for C8: a 404 on the first attempt gives RejectedPermanent
after one attempt and no wait. -/
theorem C8_permanent_rejection_witness :
    sendLog false {} (fun _ => AttemptResult.httpStatus 404)
      = Except.ok ⟨false, 1, []⟩ :=
  C8_permanent_rejection false {} (fun _ => AttemptResult.httpStatus 404)
    rfl 404 rfl (by decide) (by decide)

/-- C5: Transport totality fails in debug mode.  With `debug = true`,
`sendLog` runs `JSON.stringify(logEntry, null, 2)` outside its
`try`/`catch` (http-client.ts line 33), so for an entry whose
serialization throws the exception propagates to the caller; the same
happens in `sendBatch` (line 104).  With `debug = false` the same entry's
serialization failure is caught inside the loop and converted to Failed
after the full retry budget, as the claim demands. -/
theorem C5_debug_serialization_propagates :
    sendLog true { serializable := false } (fun _ => AttemptResult.netError)
      = Except.error ()
    ∧ sendBatch true [{ serializable := false }] (fun _ _ => AttemptResult.netError)
      = Except.error ()
    ∧ sendLog false { serializable := false } (fun _ => AttemptResult.netError)
      = Except.ok ⟨false, 4, [1000, 2000, 3000]⟩ := by
  exact ⟨rfl, rfl, rfl⟩

/-! ### Claims about the flusher and the queue -/

/-- C1: Flush mutual exclusion.  In every flusher state whose
`flushInProgress` guard is already held, triggering the flush action —
directly, through the timer-tick size check (`checkAndFlush`), or
through `manualFlush` — is a no-op: the state is unchanged, so the queue
is not drained again and no `sendBatch` call is made.  And whenever the
guard is not already held, each of these paths leaves the guard released
when it completes, for every possible delivery result `sr` (success,
partial success, or failure). -/
theorem C1_flush_mutual_exclusion (f : BatchFlusher) (sr : List LogEntry → Nat) :
    (f.flushInProgress = true →
       BatchFlusher.flush sr f = f
       ∧ BatchFlusher.checkAndFlush sr f = f
       ∧ BatchFlusher.manualFlush sr f = f)
    ∧ (f.flushInProgress = false →
       (BatchFlusher.flush sr f).flushInProgress = false
       ∧ (BatchFlusher.checkAndFlush sr f).flushInProgress = false
       ∧ (BatchFlusher.manualFlush sr f).flushInProgress = false) := by
  constructor
  · intro h
    simp [BatchFlusher.flush, BatchFlusher.checkAndFlush, BatchFlusher.manualFlush, h]
  · intro h
    have hflush : (BatchFlusher.flush sr f).flushInProgress = false := by
      simp only [BatchFlusher.flush, h, Bool.false_eq_true, if_false]
      split <;> rfl
    refine ⟨hflush, ?_, hflush⟩
    simp only [BatchFlusher.checkAndFlush, h, Bool.false_eq_true, if_false]
    split
    · exact hflush
    · exact h

/-- Witness for C1: with the guard held, a flush trigger leaves the state
untouched; with the guard free, a completed flush leaves the guard
released. -/
theorem C1_flush_mutual_exclusion_witness :
    BatchFlusher.flush (fun _ => 0)
        { batchSize := 5, queue := { queue := [{}], isShuttingDown := false },
          flushInProgress := true }
      = { batchSize := 5, queue := { queue := [{}], isShuttingDown := false },
          flushInProgress := true }
    ∧ (BatchFlusher.flush (fun _ => 0)
        { batchSize := 5, queue := { queue := [{}], isShuttingDown := false },
          flushInProgress := false }).flushInProgress = false :=
  ⟨((C1_flush_mutual_exclusion
      { batchSize := 5, queue := { queue := [{}], isShuttingDown := false },
        flushInProgress := true } (fun _ => 0)).1 rfl).1,
   ((C1_flush_mutual_exclusion
      { batchSize := 5, queue := { queue := [{}], isShuttingDown := false },
        flushInProgress := false } (fun _ => 0)).2 rfl).1⟩

/-- The sequence of `add` calls the spec's buffer properties quantify
over. -/
def enqueueAll (q : BatchQueue) (rs : List LogEntry) : BatchQueue :=
  rs.foldl (fun q e => (q.add e).2) q

/-- On a queue that is not shutting down, a sequence of `add` calls
appends exactly the given records in call order. -/
theorem enqueueAll_not_shutting_down (rs : List LogEntry) :
    ∀ q : BatchQueue, q.isShuttingDown = false →
      enqueueAll q rs = { queue := q.queue ++ rs, isShuttingDown := false } := by
  induction rs with
  | nil =>
      intro q h
      cases q
      simp_all [enqueueAll]
  | cons r rs ih =>
      intro q h
      have hstep : (q.add r).2 = { queue := q.queue ++ [r], isShuttingDown := q.isShuttingDown } := by
        simp [BatchQueue.add, h]
      have : enqueueAll q (r :: rs) = enqueueAll ((q.add r).2) rs := rfl
      rw [this, hstep, h]
      rw [ih { queue := q.queue ++ [r], isShuttingDown := false } rfl]
      simp

/-- C6: Buffer drain correctness.  For every sequence of records added to
a fresh, non-shutting-down queue, one `getAndClear` returns exactly those
records in call order, and a `size()` call on the queue left behind
returns 0. -/
theorem C6_drain_correctness (rs : List LogEntry) :
    ((enqueueAll {} rs).getAndClear).1 = rs
    ∧ (((enqueueAll {} rs).getAndClear).2).size = 0 := by
  have h := enqueueAll_not_shutting_down rs {} rfl
  rw [h]
  exact ⟨by simp [BatchQueue.getAndClear], rfl⟩

/-- C7: Shutdown flag semantics.  `beginShutdown` is idempotent and sets
the flag; on any queue whose flag is set, `add` returns false and leaves
the queue — in particular its held contents — unchanged. -/
theorem C7_shutdown_flag_semantics (q : BatchQueue) (e : LogEntry) :
    q.beginShutdown.beginShutdown = q.beginShutdown
    ∧ q.beginShutdown.isInShutdown = true
    ∧ (∀ q' : BatchQueue, q'.isShuttingDown = true → q'.add e = (false, q')) := by
  refine ⟨rfl, rfl, ?_⟩
  intro q' h
  simp [BatchQueue.add, h]

/-- Witness for C7: a shut-down queue holding one record rejects a new
record and keeps its contents. -/
theorem C7_shutdown_flag_semantics_witness :
    BatchQueue.add { queue := [{}], isShuttingDown := true } { url := "x" }
      = (false, { queue := [{}], isShuttingDown := true }) :=
  (C7_shutdown_flag_semantics { queue := [{}], isShuttingDown := true } { url := "x" }).2.2
    { queue := [{}], isShuttingDown := true } rfl

/-- On a batch of serializable entries, the sequential loop returns the
count of delivered entries and hands the entries to `sendLog` exactly in
batch order. -/
theorem sendBatchLoop_spec (debug : Bool) (oracle : LogEntry → Nat → AttemptResult) :
    ∀ entries : List LogEntry, (∀ e ∈ entries, e.serializable = true) →
      sendBatchLoop debug oracle entries
        = Except.ok (entries.countP (fun e => deliveredFlag debug e (oracle e)), entries) := by
  intro entries
  induction entries with
  | nil => intro _; simp [sendBatchLoop]
  | cons e rest ih =>
      intro h
      have he : e.serializable = true := h e (List.mem_cons_self e rest)
      have hsend : sendLog debug e (oracle e)
          = Except.ok (sendLogLoop (oracle e) (MAX_RETRIES + 2) 0) :=
        sendLog_eq_loop debug e (oracle e) he
      have hrest := ih (fun x hx => h x (List.mem_cons_of_mem e hx))
      have hflag : deliveredFlag debug e (oracle e)
          = (sendLogLoop (oracle e) (MAX_RETRIES + 2) 0).delivered := by
        simp [deliveredFlag, hsend]
      rw [sendBatchLoop, hsend, hrest]
      simp [List.countP_cons, hflag, Nat.add_comm]

/-- C9: Batch delivery order and count.  For every batch of (serializable)
records and every network environment, `sendBatch` hands the records to
`sendLog` one at a time, strictly in batch order (the invocation trace it
returns equals the batch), and returns exactly the number of records whose
`sendLog` outcome was Delivered. -/
theorem C9_sendBatch_order_and_count (debug : Bool) (entries : List LogEntry)
    (oracle : LogEntry → Nat → AttemptResult)
    (h : ∀ e ∈ entries, e.serializable = true) :
    sendBatch debug entries oracle
      = Except.ok (entries.countP (fun e => deliveredFlag debug e (oracle e)), entries) := by
  have hno : ¬ (debug ∧ entries ≠ [] ∧ entries.any (fun e => e.serializable = false)) := by
    rintro ⟨-, -, hany⟩
    rw [List.any_eq_true] at hany
    obtain ⟨e, he, hbad⟩ := hany
    have := h e he
    simp_all
  rw [sendBatch, if_neg hno]
  exact sendBatchLoop_spec debug oracle entries h

/-- Witness for C9: a two-record batch where the first record gets a 200
and the second a 404 yields a count of 1 and the in-order trace. -/
theorem C9_sendBatch_order_and_count_witness :
    sendBatch false [{ url := "a" }, { url := "b" }]
        (fun e _ => if e.url = "a" then AttemptResult.httpStatus 200
                    else AttemptResult.httpStatus 404)
      = Except.ok (1, [{ url := "a" }, { url := "b" }]) := by
  rw [C9_sendBatch_order_and_count false [{ url := "a" }, { url := "b" }]
      (fun e _ => if e.url = "a" then AttemptResult.httpStatus 200
                  else AttemptResult.httpStatus 404)
      (by intro e he; fin_cases he <;> rfl)]
  rfl

/-- C10: Monitoring size query is total without installation.
`install` with a missing/invalid environment configuration returns with
the state unchanged (in particular no queue is created), and on every
state with no queue — including the never-installed initial state —
`getQueueSize()` returns 0 instead of faulting. -/
theorem C10_getQueueSize_total (s : LogSentinelSDK) (b : Option Nat) :
    LogSentinelSDK.install s none b = s
    ∧ (s.flusher = none → LogSentinelSDK.getQueueSize s = 0)
    ∧ LogSentinelSDK.getQueueSize {} = 0 := by
  refine ⟨rfl, ?_, rfl⟩
  intro h
  simp [LogSentinelSDK.getQueueSize, h]

/-- Witness for C10 at the never-installed initial state. -/
theorem C10_getQueueSize_total_witness :
    LogSentinelSDK.install {} none none = {}
    ∧ LogSentinelSDK.getQueueSize {} = 0 :=
  ⟨(C10_getQueueSize_total {} none).1, (C10_getQueueSize_total {} none).2.1 rfl⟩

/-- A concrete record used in counterexample scenarios. -/
def sampleEntry (n : Nat) : LogEntry :=
  { statusCode := some n }

/-- C3 counterexample: enqueue 5 records (threshold 5) with no timer tick
elapsed.  No flush is triggered: the queue still holds all 5 records and
the transport has observed no `sendBatch` call — the enqueue path
(`BatchQueue.add`, reached from the interceptor) performs no threshold
check; `checkAndFlush` runs only from the `setInterval` timer. -/
theorem C3_threshold_counterexample :
    (BatchFlusher.runEvents (fun l => l.length) (BatchFlusher.start { batchSize := 5 })
        [SchedulerEvent.add (sampleEntry 1), SchedulerEvent.add (sampleEntry 2),
         SchedulerEvent.add (sampleEntry 3), SchedulerEvent.add (sampleEntry 4),
         SchedulerEvent.add (sampleEntry 5)]).sendBatchCalls = []
    ∧ (BatchFlusher.runEvents (fun l => l.length) (BatchFlusher.start { batchSize := 5 })
        [SchedulerEvent.add (sampleEntry 1), SchedulerEvent.add (sampleEntry 2),
         SchedulerEvent.add (sampleEntry 3), SchedulerEvent.add (sampleEntry 4),
         SchedulerEvent.add (sampleEntry 5)]).queue.size = 5 := by
  exact ⟨rfl, rfl⟩

/-- C3 (amended): with batch-size threshold 5, after 5 enqueues the flush
is triggered by the size check at the first timer tick (not immediately
at enqueue time); it leaves the queue empty and the transport observes
exactly one `sendBatch` call containing all 5 records in original
order. -/
theorem C3_flush_at_first_tick (r1 r2 r3 r4 r5 : LogEntry) (sr : List LogEntry → Nat) :
    (BatchFlusher.runEvents sr (BatchFlusher.start { batchSize := 5 })
        [SchedulerEvent.add r1, SchedulerEvent.add r2, SchedulerEvent.add r3,
         SchedulerEvent.add r4, SchedulerEvent.add r5, SchedulerEvent.tick]).queue.queue = []
    ∧ (BatchFlusher.runEvents sr (BatchFlusher.start { batchSize := 5 })
        [SchedulerEvent.add r1, SchedulerEvent.add r2, SchedulerEvent.add r3,
         SchedulerEvent.add r4, SchedulerEvent.add r5, SchedulerEvent.tick]).sendBatchCalls
      = [[r1, r2, r3, r4, r5]] := by
  exact ⟨rfl, rfl⟩

/-- C4 counterexample: enqueue 2 records, then shut down with a transport
whose `sendBatch` never settles within the grace period.  The reported
unsent count is 0, not 2: `manualFlush` synchronously drained the queue
before suspending on the transport, so `queue.size()` after the lost race
is 0. -/
theorem C4_shutdown_report_counterexample :
    (LogSentinelSDK.shutdown (fun _ => 0) false
        (LogSentinelSDK.enqueue (LogSentinelSDK.enqueue
            (LogSentinelSDK.install {} (some { apiKey := "k", baseUrl := "http://c", debug := false, batchSize := 5 }) none)
            (sampleEntry 1)) (sampleEntry 2))).2 = some 0
    ∧ (LogSentinelSDK.shutdown (fun _ => 0) false
        (LogSentinelSDK.enqueue (LogSentinelSDK.enqueue
            (LogSentinelSDK.install {} (some { apiKey := "k", baseUrl := "http://c", debug := false, batchSize := 5 }) none)
            (sampleEntry 1)) (sampleEntry 2))).2 ≠ some 2 := by
  exact ⟨rfl, by decide⟩

/-- C4 (amended): shutdown marks the queue shutting-down, stops the
timer, and races the final flush against the fixed grace-period timer
without canceling the loser; when the transport does not settle within
the grace period, the 2 drained records stay in flight (the `sendBatch`
call was made and the flush guard is still held), shutdown still
completes, and the reported unsent count — the queue's remaining size —
is 0, because the final flush already drained the queue before
suspending. -/
theorem C4_shutdown_drains_then_races (r1 r2 : LogEntry) (sr : List LogEntry → Nat) :
    (LogSentinelSDK.shutdown sr false
        (LogSentinelSDK.enqueue (LogSentinelSDK.enqueue
            (LogSentinelSDK.install {} (some { apiKey := "k", baseUrl := "http://c", debug := false, batchSize := 5 }) none)
            r1) r2)).2 = some 0
    ∧ (LogSentinelSDK.shutdown sr false
        (LogSentinelSDK.enqueue (LogSentinelSDK.enqueue
            (LogSentinelSDK.install {} (some { apiKey := "k", baseUrl := "http://c", debug := false, batchSize := 5 }) none)
            r1) r2)).1.flusher
      = some { batchSize := 5,
               queue := { queue := [], isShuttingDown := true },
               flushInProgress := true, isRunning := false, timerActive := false,
               sendBatchCalls := [[r1, r2]], lastReport := none } := by
  exact ⟨rfl, rfl⟩

end LogSentinel
